import Mathlib

/-!
Verification of the GACG-Caddy round-entry front end.

The development embeds, in Lean, the score-aggregation arithmetic
(out / in / gross / net over an 18-hole score sequence) and the
new-round form pipeline of `components/round/NewRound`
(initial values, validation, value transformation, and the submit
handler with its mutation callbacks), and proves the stated
properties about them.
-/

/-! ## Score aggregation (`utils/holes`) -/

/-- Modelled from the spec: the function `getOut` of `utils/holes`
(the module is imported by `NewRound` but its source is absent).
The spec says: sum of `scores[0..8]`, the first nine entries. -/
def getOut (scores : List Int) : Int :=
  (scores.take 9).sum

/-- Modelled from the spec: the function `getIn` of `utils/holes`
(source absent). The spec says: sum of `scores[9..17]`, the last
nine entries. -/
def getIn (scores : List Int) : Int :=
  (scores.drop 9).sum

/-- Modelled from the spec: the function `getGross` of `utils/holes`
(source absent). The spec says: sum of all 18 entries. -/
def getGross (scores : List Int) : Int :=
  scores.sum

/-- Modelled from the spec: the function `getNet` of `utils/holes`
(source absent). The spec says: `getGross(scores) - handicap`. -/
def getNet (scores : List Int) (handicap : Int) : Int :=
  getGross scores - handicap

/-- The sum of the first `n` entries of a list equals the sum, over
the first `n` indices, of the entries read with default `0`. -/
lemma sum_take_eq_sum_getD (s : List Int) :
    ∀ n : Nat, (s.take n).sum = ∑ i ∈ Finset.range n, s.getD i 0 := by
  induction s with
  | nil =>
      intro n
      simp [List.getD]
  | cons a t ih =>
      intro n
      cases n with
      | zero => simp
      | succ m =>
          rw [Finset.sum_range_succ']
          simp only [List.take_succ_cons, List.sum_cons, List.getD_cons_succ,
            List.getD_cons_zero]
          rw [ih m]
          ring

/-- Reading the drop of a list with default `0` shifts the index. -/
lemma getD_drop_eq (s : List Int) :
    ∀ (n i : Nat), (s.drop n).getD i 0 = s.getD (n + i) 0 := by
  induction s with
  | nil =>
      intro n i
      simp [List.getD]
  | cons a t ih =>
      intro n i
      cases n with
      | zero => simp
      | succ m =>
          simp only [List.drop_succ_cons, Nat.succ_add, List.getD_cons_succ]
          exact ih m i

/-! ## Data model of the new-round form (`components/round/NewRound`) -/

/-- The enum `TournamentDay` of `data/constants`. -/
inductive TournamentDay
  | friday
  | saturday
  | sunday
  | all
deriving DecidableEq

/-- The enum `Division` of `data/constants`. -/
inductive Division
  | a
  | b
deriving DecidableEq

/-- A player, as in `hooks/players/model`: id, full name, division and
handicap. -/
structure Player where
  id : Int
  fullName : String
  division : Division
  handicap : Int
deriving DecidableEq

/-- The value held by one hole input of the form. The form is
initialised with the empty string, and a Mantine NumberInput otherwise
holds a number. -/
inductive ScoreField
  | empty
  | val (n : Int)
deriving DecidableEq

/-- JavaScript `Number` coercion on a score field: `Number` of the
empty string is `0`, and a number coerces to itself. -/
def ScoreField.toNumber : ScoreField → Int
  | .empty => 0
  | .val n => n

/-- One entry of the `grossHoles` array of the form: an object holding
a `score` field. -/
structure GrossHole where
  score : ScoreField
deriving DecidableEq

/-- The `values` of the `useForm` state: `playerId` (null or a player
id), `day`, and the `grossHoles` array. -/
structure FormValues where
  playerId : Option Int
  day : TournamentDay
  grossHoles : List GrossHole
deriving DecidableEq

/-- The `initialValues` of the `useForm` call: null player id, the
current tournament day, and a `grossHoles` array of 18 entries each
filled with an empty score string. The day is a parameter here because
`getTournamentDay` reads the clock. -/
def initialValues (day : TournamentDay) : FormValues :=
  { playerId := none
    day := day
    grossHoles := List.replicate 18 { score := ScoreField.empty } }

/-- The `playerId` validator:
`(value) => (value != null ? null : 'Player is required')`. -/
def validatePlayerId (value : Option Int) : Option String :=
  if value.isSome then none else some "Player is required"

/-- The per-score validator of `grossHoles`:
`(value) => (Number(value) > 0 ? null : true)`; `true` marks an
error. -/
def validateScore (value : ScoreField) : Bool :=
  !(value.toNumber > 0)

/-- Whether the validators of the form report any error, which is what
blocks form submission. -/
def formHasErrors (v : FormValues) : Bool :=
  (validatePlayerId v.playerId).isSome ||
    v.grossHoles.any (fun hole => validateScore hole.score)

/-- JavaScript `Number` coercion on the `playerId` form value:
`Number(null)` is `0`. -/
def playerIdToNumber : Option Int → Int
  | none => 0
  | some pid => pid

/-- The transformed values handed to `onSubmit`, as produced by
`transformValues`. -/
structure NewRoundFormData where
  player : Option Player
  day : TournamentDay
  grossHoles : List Int
deriving DecidableEq

/-- The `transformValues` of the `useForm` call: resolve the selected
player by id in the fetched player list, keep the day, and map every
`grossHoles` entry to `Number(hole.score)`. -/
def transformValues (players : List Player) (v : FormValues) : NewRoundFormData :=
  { player := players.find? (fun p => p.id == playerIdToNumber v.playerId)
    day := v.day
    grossHoles := v.grossHoles.map (fun hole => hole.score.toNumber) }

/-- An update of one hole input: `form.getInputProps` with path
`grossHoles.i.score` writes the entered value at index `i` of the
array. -/
def setScore (v : FormValues) (i : Nat) (s : ScoreField) : FormValues :=
  { v with grossHoles := v.grossHoles.set i { score := s } }

/-! ## The submit handler and its mutation callbacks -/

/-- A value returned by the create-round mutation: the backend answers
with a boolean on the expected path, and `jsOther` stands for any
non-boolean response value. -/
inductive MutationResponse
  | jsBool (b : Bool)
  | jsOther
deriving DecidableEq

/-- How the create-round request ends: completed with a response value
(the `onSuccess` callback runs), or failed in transport (the `onError`
callback runs). -/
inductive MutationOutcome
  | completed (response : MutationResponse)
  | errored
deriving DecidableEq

/-- An update applied to the loading toast: `updateSuccess` or
`updateFailure` with a message. -/
inductive NotifUpdate
  | updSuccess (msg : String)
  | updFailure (msg : String)
deriving DecidableEq

/-- Whether a toast update reports a failure. -/
def NotifUpdate.isFailure : NotifUpdate → Bool
  | .updSuccess _ => false
  | .updFailure _ => true

/-- The `onSuccess` callback of the mutate call: when the response is
exactly the boolean `true`, update the toast to success and close the
modal; otherwise update it to failure and leave the modal open. The
returned pair is the toast update and whether `closeModal` is
called. -/
def onSuccessCallback (response : MutationResponse) : NotifUpdate × Bool :=
  if response = MutationResponse.jsBool true then
    (NotifUpdate.updSuccess "Saved round", true)
  else
    (NotifUpdate.updFailure "Failed to save round", false)

/-- The `onError` callback of the mutate call: update the toast to
failure; `closeModal` is not called. -/
def onErrorCallback : NotifUpdate × Bool :=
  (NotifUpdate.updFailure "Failed to save round", false)

/-- The errors object of the form; the only error the submit handler
sets is on `playerId`. `form.setErrors` replaces the whole object. -/
structure FormErrors where
  playerId : Option String
deriving DecidableEq

/-- The form state the submit handler can touch: the current values
and the errors object. -/
structure FormState where
  values : FormValues
  errors : FormErrors
deriving DecidableEq

/-- The argument object of `createRoundMutation.mutate`. -/
structure CreateRoundArgs where
  playerId : Int
  day : TournamentDay
  grossHoles : List Int
deriving DecidableEq

/-- Everything observable about one run of the submit handler: the
mutate call (if any) with its arguments, whether the loading toast was
shown, the updates applied to it, whether the modal was closed, and
the resulting form state. -/
structure SubmitRun where
  mutateArgs : Option CreateRoundArgs
  loadingShown : Bool
  updates : List NotifUpdate
  modalClosed : Bool
  state : FormState
deriving DecidableEq

/-- The `onSubmit` handler of `NewRound`. With a resolved player it
shows the loading toast and calls the mutation with the player id, day
and gross holes; the mutation outcome then drives exactly one of the
two callbacks. Without a resolved player it only sets the
`playerId` error `Selected player no longer exists` on the form. -/
def onSubmit (st : FormState) (data : NewRoundFormData)
    (outcome : MutationOutcome) : SubmitRun :=
  match data.player with
  | some player =>
      let cb :=
        match outcome with
        | .completed response => onSuccessCallback response
        | .errored => onErrorCallback
      { mutateArgs := some
          { playerId := player.id, day := data.day, grossHoles := data.grossHoles }
        loadingShown := true
        updates := [cb.1]
        modalClosed := cb.2
        state := st }
  | none =>
      { mutateArgs := none
        loadingShown := false
        updates := []
        modalClosed := false
        state := { st with
          errors := { playerId := some "Selected player no longer exists" } } }

/-! ## The hole input (`HoleInput`) -/

/-- The NumberInput props that `HoleInput` sets: `min`, `max`,
`clampBehavior`, `allowNegative` and `allowDecimal`. -/
structure NumberInputProps where
  min : ℚ
  max : ℚ
  clampBehaviorStrict : Bool
  allowNegative : Bool
  allowDecimal : Bool
deriving DecidableEq

/-- The props every `HoleInput` passes to its NumberInput:
`min=1 max=99 clampBehavior=strict allowNegative=false
allowDecimal=false`. -/
def holeInputProps : NumberInputProps :=
  { min := 1
    max := 99
    clampBehaviorStrict := true
    allowNegative := false
    allowDecimal := false }

/-- Modelled from the spec: the acceptance behaviour of the Mantine
NumberInput, which is library code absent from the repository; the
spec words are no negatives, no decimals, strict clamping. With
`allowNegative` false a negative value is rejected, with
`allowDecimal` false a non-integer value is rejected, and with strict
clamping the value is forced into the interval from `min` to `max`.
`none` means no value is accepted (the field stays empty). -/
def acceptedScore (p : NumberInputProps) (raw : ℚ) : Option ℚ :=
  if raw < 0 ∧ p.allowNegative = false then none
  else if raw.den ≠ 1 ∧ p.allowDecimal = false then none
  else if p.clampBehaviorStrict then some (min p.max (max p.min raw))
  else some raw

/-- C1: for every 18-element score sequence `s`, `getGross s` equals
`getOut s + getIn s`. -/
theorem getGross_eq_getOut_add_getIn (s : List Int) (h : s.length = 18) :
    getGross s = getOut s + getIn s := by
  unfold getGross getOut getIn
  rw [← List.sum_append, List.take_append_drop]

/-- Witness for C1 at a concrete 18-element sequence. -/
theorem getGross_eq_getOut_add_getIn_witness :
    getGross [4, 5, 3, 4, 5, 4, 3, 5, 4, 4, 4, 5, 3, 4, 5, 4, 3, 4] =
      getOut [4, 5, 3, 4, 5, 4, 3, 5, 4, 4, 4, 5, 3, 4, 5, 4, 3, 4] +
        getIn [4, 5, 3, 4, 5, 4, 3, 5, 4, 4, 4, 5, 3, 4, 5, 4, 3, 4] :=
  getGross_eq_getOut_add_getIn _ (by decide)

/-- C3: for every 18-element score sequence and every handicap,
`getNet` is `getGross` minus the handicap, and the result is negative
whenever the handicap exceeds the gross. -/
theorem getNet_eq_getGross_sub_handicap (s : List Int) (handicap : Int)
    (h : s.length = 18) :
    getNet s handicap = getGross s - handicap ∧
      (getGross s < handicap → getNet s handicap < 0) := by
  refine ⟨rfl, fun hlt => ?_⟩
  unfold getNet
  omega

/-- Witness for C3: a concrete sequence with gross 73 and handicap 100,
where the net is indeed the gross minus the handicap and is negative. -/
theorem getNet_eq_getGross_sub_handicap_witness :
    getNet [4, 5, 3, 4, 5, 4, 3, 5, 4, 4, 4, 5, 3, 4, 5, 4, 3, 4] 100 =
        getGross [4, 5, 3, 4, 5, 4, 3, 5, 4, 4, 4, 5, 3, 4, 5, 4, 3, 4] - 100 ∧
      getNet [4, 5, 3, 4, 5, 4, 3, 5, 4, 4, 4, 5, 3, 4, 5, 4, 3, 4] 100 < 0 := by
  have h := getNet_eq_getGross_sub_handicap
    [4, 5, 3, 4, 5, 4, 3, 5, 4, 4, 4, 5, 3, 4, 5, 4, 3, 4] 100 (by decide)
  exact ⟨h.1, h.2 (by decide)⟩

/-- C2: for every 18-element score sequence, `getOut` is the sum of the
entries at indices 0 to 8, `getIn` is the sum of the entries at indices
9 to 17, and `getGross` is the sum of all 18 entries. -/
theorem aggregate_index_sums (s : List Int) (h : s.length = 18) :
    getOut s = ∑ i ∈ Finset.range 9, s.getD i 0 ∧
      getIn s = ∑ i ∈ Finset.range 9, s.getD (9 + i) 0 ∧
      getGross s = ∑ i ∈ Finset.range 18, s.getD i 0 := by
  refine ⟨sum_take_eq_sum_getD s 9, ?_, ?_⟩
  · unfold getIn
    have hlen : (s.drop 9).length = 9 := by
      rw [List.length_drop, h]
    have htake : ((s.drop 9).take 9).sum = (s.drop 9).sum := by
      rw [List.take_of_length_le (le_of_eq hlen)]
    rw [← htake, sum_take_eq_sum_getD]
    exact Finset.sum_congr rfl fun i _ => getD_drop_eq s 9 i
  · unfold getGross
    have htake : (s.take 18).sum = s.sum := by
      rw [List.take_of_length_le (le_of_eq h)]
    rw [← htake, sum_take_eq_sum_getD]

/-- Witness for C2 at a concrete 18-element sequence. -/
theorem aggregate_index_sums_witness :
    getOut [4, 5, 3, 4, 5, 4, 3, 5, 4, 4, 4, 5, 3, 4, 5, 4, 3, 4] =
        ∑ i ∈ Finset.range 9,
          ([4, 5, 3, 4, 5, 4, 3, 5, 4, 4, 4, 5, 3, 4, 5, 4, 3, 4] : List Int).getD i 0 ∧
      getIn [4, 5, 3, 4, 5, 4, 3, 5, 4, 4, 4, 5, 3, 4, 5, 4, 3, 4] =
        ∑ i ∈ Finset.range 9,
          ([4, 5, 3, 4, 5, 4, 3, 5, 4, 4, 4, 5, 3, 4, 5, 4, 3, 4] : List Int).getD (9 + i) 0 ∧
      getGross [4, 5, 3, 4, 5, 4, 3, 5, 4, 4, 4, 5, 3, 4, 5, 4, 3, 4] =
        ∑ i ∈ Finset.range 18,
          ([4, 5, 3, 4, 5, 4, 3, 5, 4, 4, 4, 5, 3, 4, 5, 4, 3, 4] : List Int).getD i 0 :=
  aggregate_index_sums _ (by decide)

/-- C8: the worked example of the spec: for the given 18 scores and
handicap 10, out is 37, in is 36, gross is 73 and net is 63. -/
theorem worked_example :
    getOut [4, 5, 3, 4, 5, 4, 3, 5, 4, 4, 4, 5, 3, 4, 5, 4, 3, 4] = 37 ∧
      getIn [4, 5, 3, 4, 5, 4, 3, 5, 4, 4, 4, 5, 3, 4, 5, 4, 3, 4] = 36 ∧
      getGross [4, 5, 3, 4, 5, 4, 3, 5, 4, 4, 4, 5, 3, 4, 5, 4, 3, 4] = 73 ∧
      getNet [4, 5, 3, 4, 5, 4, 3, 5, 4, 4, 4, 5, 3, 4, 5, 4, 3, 4] 10 = 63 := by
  refine ⟨?_, ?_, ?_, ?_⟩ <;> decide

/-- C4: form submission is blocked exactly when no player is selected
or some hole score, coerced to a number, is not strictly positive;
with a selected player and all scores positive, validation passes. -/
theorem validation_passes_iff (v : FormValues) :
    formHasErrors v = false ↔
      (v.playerId ≠ none ∧
        ∀ hole ∈ v.grossHoles, hole.score.toNumber > 0) := by
  cases hpid : v.playerId with
  | none =>
      simp [formHasErrors, validatePlayerId, hpid]
  | some pid =>
      simp [formHasErrors, validatePlayerId, validateScore, hpid]

/-- C6: the grossHoles array starts with exactly 18 entries, score
updates and value transformation preserve its length, so the
transformed grossHoles handed to the create-round mutation has length
18. -/
theorem grossHoles_always_18 :
    (∀ day, (initialValues day).grossHoles.length = 18) ∧
      (∀ v i s, (setScore v i s).grossHoles.length = v.grossHoles.length) ∧
      (∀ players v,
        (transformValues players v).grossHoles.length = v.grossHoles.length) ∧
      (∀ players day,
        (transformValues players (initialValues day)).grossHoles.length = 18) := by
  refine ⟨fun day => ?_, fun v i s => ?_, fun players v => ?_, fun players day => ?_⟩
  · simp [initialValues]
  · simp [setScore]
  · simp [transformValues]
  · simp [transformValues, initialValues]

/-- C7: every value a hole input accepts is an integer between 1 and
99: the props reject negatives and decimals and clamp strictly into
the interval from 1 to 99. -/
theorem holeInput_accepts_int_1_to_99 (raw v : ℚ)
    (h : acceptedScore holeInputProps raw = some v) :
    v.den = 1 ∧ 1 ≤ v ∧ v ≤ 99 := by
  unfold acceptedScore holeInputProps at h
  simp only [] at h
  by_cases hneg : raw < 0
  · simp [hneg] at h
  · by_cases hden : raw.den ≠ 1
    · simp [hneg, hden] at h
    · push_neg at hden
      simp [hneg, hden] at h
      subst h
      refine ⟨?_, le_min (by norm_num) (le_max_left 1 raw), min_le_left _ _⟩
      rcases le_total (99 : ℚ) (max 1 raw) with hle | hle
      · rw [min_eq_left hle]
        exact Rat.den_ofNat 99
      · rw [min_eq_right hle]
        rcases le_total (1 : ℚ) raw with h1 | h1
        · rw [max_eq_right h1]; exact hden
        · rw [max_eq_left h1]
          exact Rat.den_one

/-- Witness for C7: the input 5 is accepted unchanged and lies in the
interval. -/
theorem holeInput_accepts_int_1_to_99_witness :
    (5 : ℚ).den = 1 ∧ 1 ≤ (5 : ℚ) ∧ (5 : ℚ) ≤ 99 :=
  holeInput_accepts_int_1_to_99 5 5 (by
    simp [acceptedScore, holeInputProps]
    norm_num)

/-- C5: when the create-round mutation fails, by transport error or by
a response other than true, exactly one failure toast is produced, the
modal stays open, and the form state is untouched. -/
theorem submit_failure_reported_once (st : FormState) (data : NewRoundFormData)
    (p : Player) (outcome : MutationOutcome)
    (hp : data.player = some p)
    (hf : outcome ≠ MutationOutcome.completed (MutationResponse.jsBool true)) :
    ((onSubmit st data outcome).updates.countP NotifUpdate.isFailure) = 1 ∧
      (onSubmit st data outcome).modalClosed = false ∧
      (onSubmit st data outcome).state = st := by
  cases outcome with
  | errored =>
      simp [onSubmit, hp, onErrorCallback, NotifUpdate.isFailure, List.countP,
        List.countP.go]
  | completed r =>
      have hr : r ≠ MutationResponse.jsBool true := by
        intro hcontra
        exact hf (by rw [hcontra])
      simp [onSubmit, hp, onSuccessCallback, hr, NotifUpdate.isFailure,
        List.countP, List.countP.go]

/-- Witness for C5: a concrete failing submission (transport error). -/
theorem submit_failure_reported_once_witness :
    ((onSubmit
        { values := { playerId := some 1, day := TournamentDay.friday, grossHoles := [] }
          errors := { playerId := none } }
        { player := some { id := 1, fullName := "A B", division := Division.a, handicap := 4 }
          day := TournamentDay.friday
          grossHoles := [] }
        MutationOutcome.errored).updates.countP NotifUpdate.isFailure) = 1 ∧
      (onSubmit
        { values := { playerId := some 1, day := TournamentDay.friday, grossHoles := [] }
          errors := { playerId := none } }
        { player := some { id := 1, fullName := "A B", division := Division.a, handicap := 4 }
          day := TournamentDay.friday
          grossHoles := [] }
        MutationOutcome.errored).modalClosed = false ∧
      (onSubmit
        { values := { playerId := some 1, day := TournamentDay.friday, grossHoles := [] }
          errors := { playerId := none } }
        { player := some { id := 1, fullName := "A B", division := Division.a, handicap := 4 }
          day := TournamentDay.friday
          grossHoles := [] }
        MutationOutcome.errored).state =
        { values := { playerId := some 1, day := TournamentDay.friday, grossHoles := [] }
          errors := { playerId := none } } :=
  submit_failure_reported_once _ _
    { id := 1, fullName := "A B", division := Division.a, handicap := 4 }
    MutationOutcome.errored rfl (by decide)

/-- C9: after a completed request, any response other than the boolean
true yields the failure toast and leaves the modal open; the success
toast and the modal close happen exactly for the response true. -/
theorem onSuccess_requires_true_response (st : FormState)
    (data : NewRoundFormData) (p : Player) (r : MutationResponse)
    (hp : data.player = some p)
    (hr : r ≠ MutationResponse.jsBool true) :
    (onSubmit st data (MutationOutcome.completed r)).updates =
        [NotifUpdate.updFailure "Failed to save round"] ∧
      (onSubmit st data (MutationOutcome.completed r)).modalClosed = false ∧
      (onSubmit st data
          (MutationOutcome.completed (MutationResponse.jsBool true))).updates =
        [NotifUpdate.updSuccess "Saved round"] ∧
      (onSubmit st data
          (MutationOutcome.completed (MutationResponse.jsBool true))).modalClosed =
        true := by
  refine ⟨?_, ?_, ?_, ?_⟩ <;>
    simp [onSubmit, hp, onSuccessCallback, hr]

/-- Witness for C9: a concrete submission whose response is a
non-boolean value. -/
theorem onSuccess_requires_true_response_witness :
    (onSubmit
        { values := { playerId := some 2, day := TournamentDay.saturday, grossHoles := [] }
          errors := { playerId := none } }
        { player := some { id := 2, fullName := "C D", division := Division.b, handicap := 7 }
          day := TournamentDay.saturday
          grossHoles := [] }
        (MutationOutcome.completed MutationResponse.jsOther)).updates =
        [NotifUpdate.updFailure "Failed to save round"] ∧
      (onSubmit
        { values := { playerId := some 2, day := TournamentDay.saturday, grossHoles := [] }
          errors := { playerId := none } }
        { player := some { id := 2, fullName := "C D", division := Division.b, handicap := 7 }
          day := TournamentDay.saturday
          grossHoles := [] }
        (MutationOutcome.completed MutationResponse.jsOther)).modalClosed = false ∧
      (onSubmit
        { values := { playerId := some 2, day := TournamentDay.saturday, grossHoles := [] }
          errors := { playerId := none } }
        { player := some { id := 2, fullName := "C D", division := Division.b, handicap := 7 }
          day := TournamentDay.saturday
          grossHoles := [] }
        (MutationOutcome.completed (MutationResponse.jsBool true))).updates =
        [NotifUpdate.updSuccess "Saved round"] ∧
      (onSubmit
        { values := { playerId := some 2, day := TournamentDay.saturday, grossHoles := [] }
          errors := { playerId := none } }
        { player := some { id := 2, fullName := "C D", division := Division.b, handicap := 7 }
          day := TournamentDay.saturday
          grossHoles := [] }
        (MutationOutcome.completed (MutationResponse.jsBool true))).modalClosed =
        true :=
  onSuccess_requires_true_response _ _
    { id := 2, fullName := "C D", division := Division.b, handicap := 7 }
    MutationResponse.jsOther rfl (by decide)

/-- C10: when the transformed player is undefined the mutation is
never invoked, the playerId error Selected player no longer exists is
set, and the form values are otherwise unchanged. -/
theorem submit_without_player (st : FormState) (data : NewRoundFormData)
    (outcome : MutationOutcome)
    (hp : data.player = none) :
    (onSubmit st data outcome).mutateArgs = none ∧
      (onSubmit st data outcome).loadingShown = false ∧
      (onSubmit st data outcome).updates = [] ∧
      (onSubmit st data outcome).modalClosed = false ∧
      (onSubmit st data outcome).state.errors.playerId =
        some "Selected player no longer exists" ∧
      (onSubmit st data outcome).state.values = st.values := by
  refine ⟨?_, ?_, ?_, ?_, ?_, ?_⟩ <;> simp [onSubmit, hp]

/-- Witness for C10: a concrete submission with no resolved player. -/
theorem submit_without_player_witness :
    (onSubmit
        { values := { playerId := some 3, day := TournamentDay.sunday, grossHoles := [] }
          errors := { playerId := none } }
        { player := none, day := TournamentDay.sunday, grossHoles := [] }
        MutationOutcome.errored).mutateArgs = none ∧
      (onSubmit
        { values := { playerId := some 3, day := TournamentDay.sunday, grossHoles := [] }
          errors := { playerId := none } }
        { player := none, day := TournamentDay.sunday, grossHoles := [] }
        MutationOutcome.errored).loadingShown = false ∧
      (onSubmit
        { values := { playerId := some 3, day := TournamentDay.sunday, grossHoles := [] }
          errors := { playerId := none } }
        { player := none, day := TournamentDay.sunday, grossHoles := [] }
        MutationOutcome.errored).updates = [] ∧
      (onSubmit
        { values := { playerId := some 3, day := TournamentDay.sunday, grossHoles := [] }
          errors := { playerId := none } }
        { player := none, day := TournamentDay.sunday, grossHoles := [] }
        MutationOutcome.errored).modalClosed = false ∧
      (onSubmit
        { values := { playerId := some 3, day := TournamentDay.sunday, grossHoles := [] }
          errors := { playerId := none } }
        { player := none, day := TournamentDay.sunday, grossHoles := [] }
        MutationOutcome.errored).state.errors.playerId =
        some "Selected player no longer exists" ∧
      (onSubmit
        { values := { playerId := some 3, day := TournamentDay.sunday, grossHoles := [] }
          errors := { playerId := none } }
        { player := none, day := TournamentDay.sunday, grossHoles := [] }
        MutationOutcome.errored).state.values =
        { playerId := some 3, day := TournamentDay.sunday, grossHoles := [] } :=
  submit_without_player _ _ MutationOutcome.errored rfl
